import Mathlib

/-!
Shallow embedding of `src/main.py` (a Telegram media-downloader bot) and
proofs about it.  Pure computations (the cooldown check, the statistics
record, the size policy of the media relay, the API-error normalisation and
the per-item relay loop of the platform handlers) are translated into Lean
functions.  External effects are made explicit parameters:

* wall-clock time (`time.time()`) is a rational argument `now`;
* the outcome of each outbound HTTP request is an environment value
  (`HttpOutcome` for the extraction API, `ItemEnv` for a media fetch/send);
* Python exceptions are `Except String` values, and a `try/except` block is
  a `match` on such a value;
* chat-transport sends (`reply_text`, `reply_video`, `msg.delete`, ...) are
  recorded in the handler result (`Reply`, `Ev` trace) rather than executed.

Python floats are modelled by `ℚ`; byte strings by their length in `ℕ`.
-/

namespace SocialDownloader

/-- The three media kinds handled by `send_media_from_url`
(`media_type` strings "video", "photo", "audio" in the source). -/
inductive MediaType
  | video
  | photo
  | audio
  deriving DecidableEq, Repr

/-- Size cap for inline video delivery: `50 * 1024 * 1024` bytes
(src/main.py line 93). -/
def videoLimit : Nat := 50 * 1024 * 1024

/-- Size cap for inline photo delivery: `10 * 1024 * 1024` bytes
(src/main.py line 95). -/
def photoLimit : Nat := 10 * 1024 * 1024

deriving instance DecidableEq for Except

/-- Environment of one `send_media_from_url` call: the outcome of the
`requests.get(file_url, timeout=60, stream=True)` fetch (together with
`raise_for_status`), giving the byte length of `r.content` on success, and
the outcome of the `reply_video/reply_audio/reply_photo` chat send. -/
structure ItemEnv where
  fetch : Except String Nat
  send : Except String Unit
  deriving DecidableEq, Repr

/-- The `try`-body of `send_media_from_url` (src/main.py lines 85-104):
fetch the bytes, raise `ValueError` when a video exceeds 50 MiB or a photo
exceeds 10 MiB, otherwise send inline and return `True`.  No size check
exists for audio.  A raised Python exception is an `Except.error`. -/
def send_media_body (mediaType : MediaType) (env : ItemEnv) : Except String Bool :=
  match env.fetch with
  | Except.error e => Except.error e
  | Except.ok len =>
    if mediaType = MediaType.video ∧ len > videoLimit then
      Except.error "Video >50MB"
    else if mediaType = MediaType.photo ∧ len > photoLimit then
      Except.error "Photo >10MB"
    else
      match env.send with
      | Except.error e => Except.error e
      | Except.ok _ => Except.ok true

/-- Embeds `send_media_from_url` (src/main.py lines 84-107): the whole body runs
under `try/except Exception`, so any raised error is swallowed and the
function returns `False`; `True` is returned only when the inline send
succeeded. -/
def send_media_from_url (mediaType : MediaType) (env : ItemEnv) : Bool :=
  match send_media_body mediaType env with
  | Except.ok b => b
  | Except.error _ => false

/-- Whether an `Except` value is a success (used to phrase results about
delivery outcomes depending only on fetch/send success). -/
def exceptOk {α : Type} (r : Except String α) : Bool :=
  match r with
  | Except.ok _ => true
  | Except.error _ => false

/-- Python's `round(x, 1)`: round to one decimal place, ties to even
(banker's rounding), on the rational model of floats. -/
def round1 (x : ℚ) : ℚ :=
  let y : ℚ := x * 10
  let f : ℤ := ⌊y⌋
  let frac : ℚ := y - f
  let n : ℤ :=
    if frac > 1/2 then f + 1
    else if frac < 1/2 then f
    else if f % 2 = 0 then f else f + 1
  (n : ℚ) / 10

/-- The per-user session state `context.user_data`: it holds at most the
key `last_cmd` (a timestamp).  `none` models an absent key, which
`user_data.get('last_cmd', 0)` reads as `0`. -/
structure UserData where
  last_cmd : Option ℚ
  deriving DecidableEq, Repr

/-- Embeds `check_cooldown` (src/main.py lines 65-73).  Returns the pair the
Python function returns — `(on_cooldown, wait)`, where `on_cooldown = true`
means the command is NOT allowed — together with the user session state
after the call.  Admins (members of `adminIds`) bypass the check without
touching state; a blocked attempt leaves the timestamp unchanged; an
allowed attempt records `now`. -/
def check_cooldown (adminIds : List Nat) (cooldown : ℚ) (userId : Nat)
    (userData : UserData) (now : ℚ) : (Bool × ℚ) × UserData :=
  if userId ∈ adminIds then
    ((false, 0), userData)
  else
    let last : ℚ := userData.last_cmd.getD 0
    if now - last < cooldown then
      ((true, round1 (cooldown - (now - last))), userData)
    else
      ((false, 0), { userData with last_cmd := some now })

/-- The global `stats` dict (src/main.py lines 30-37).  `users` models the
Python `set` as a duplicate-free list; `commands_used` models the dict as
an association list. -/
structure Stats where
  total_requests : Nat
  successful_requests : Nat
  failed_requests : Nat
  users : List Nat
  commands_used : List (String × Nat)
  start_time : ℚ
  deriving DecidableEq, Repr

/-- The initial `stats` value at process start time `t0`. -/
def stats0 (t0 : ℚ) : Stats :=
  { total_requests := 0
    successful_requests := 0
    failed_requests := 0
    users := []
    commands_used := []
    start_time := t0 }

/-- Models `set.add`: insert a user id if not already present. -/
def insertUser (u : Nat) (l : List Nat) : List Nat :=
  if u ∈ l then l else u :: l

/-- Models `stats["commands_used"][cmd] = ....get(cmd, 0) + 1` on the
association-list model of the dict. -/
def bumpCount (cmd : String) : List (String × Nat) → List (String × Nat)
  | [] => [(cmd, 1)]
  | (k, v) :: rest =>
    if k = cmd then (k, v + 1) :: rest else (k, v) :: bumpCount cmd rest

/-- Embeds `track_command` (src/main.py lines 75-82): increment the total, add the
user, increment exactly one of the success/failure counters, bump the
per-command counter. -/
def track_command (userId : Nat) (cmd : String) (success : Bool) (st : Stats) : Stats :=
  { st with
    total_requests := st.total_requests + 1
    users := insertUser userId st.users
    successful_requests :=
      if success then st.successful_requests + 1 else st.successful_requests
    failed_requests :=
      if success then st.failed_requests else st.failed_requests + 1
    commands_used := bumpCount cmd st.commands_used }

/-- The success rate computed by `about` (src/main.py line 132):
`successful_requests / max(total_requests, 1) * 100`, exact on `ℚ`. -/
def success_rate (st : Stats) : ℚ :=
  ((st.successful_requests : ℚ) / (max st.total_requests 1 : ℚ)) * 100

/-- One record of the TikTok API payload (`data[i]` in the handler): its
`downloadLinks` are flattened to the list of their `link` fields.  A missing
or empty `downloadLinks` list makes `video["downloadLinks"][0]["link"]`
raise, which the handler's `except` clause catches. -/
structure VideoRecord where
  downloadLinks : List String
  thumbnail : Option String
  title : Option String
  deriving DecidableEq, Repr

/-- The parsed JSON body returned by the extraction API, restricted to the
fields the handlers read: `success`, `error`, `urls` (Instagram) and `data`
(TikTok, called `dataField` here since `data` is taken in Lean).  `none`
models an absent key. -/
structure ApiDict where
  success : Bool
  error : Option String
  urls : Option (List String)
  dataField : Option (List VideoRecord)
  deriving DecidableEq, Repr

/-- Behaviour of the one outbound HTTP request of `call_api`: either
`requests.get` raised (transport error, timeout, ...), or a response
arrived with a status code and a body whose JSON parse either succeeds or
raises. -/
inductive HttpOutcome
  | exn (msg : String)
  | response (status : Nat) (body : Except String ApiDict)
  deriving DecidableEq, Repr

/-- The dict `{"success": False, "error": str(e)}` built by `call_api`'s
`except` clause. -/
def failureDict (msg : String) : ApiDict :=
  { success := false, error := some msg, urls := none, dataField := none }

/-- The `try`-body of `call_api` (src/main.py lines 43-49): issue the
request, `raise_for_status()` (4xx/5xx raises `HTTPError`), parse the JSON
body.  Any raised exception is an `Except.error` carrying its message. -/
def call_api_body (o : HttpOutcome) : Except String ApiDict :=
  match o with
  | HttpOutcome.exn m => Except.error m
  | HttpOutcome.response status body =>
    if 400 ≤ status then
      Except.error ("HTTP " ++ toString status ++ " Error")
    else
      body

/-- Embeds `call_api` (src/main.py lines 42-52).  `endpoint`, `url` and `extra`
form the request; `o` is the network's behaviour for that request.  The
`except Exception` clause turns every raised error into
`{"success": False, "error": str(e)}`, so the function always returns a
dict — it never raises past this boundary. -/
def call_api (endpoint : String) (url : String) (extra : List (String × String))
    (o : HttpOutcome) : ApiDict :=
  match call_api_body o with
  | Except.ok d => d
  | Except.error e => failureDict e

/-- The ten spinner frames of `loading_animation` (src/main.py line 55). -/
def spinner : List String :=
  ["⠋", "⠙", "⠹", "⠸", "⠼", "⠴", "⠦", "⠧", "⠇", "⠏"]

/-- The frames shown by `k` completed iterations of the animation loop:
iteration `i` edits the status message to frame `spinner[i % 10]`. -/
def loading_animation_frames (k : Nat) : List String :=
  (List.range k).map (fun i => (spinner.getD (i % 10) ""))

/-- The `while True` loop inside `loading_animation`'s `try`: it never
exits normally — it ends only when an exception (the task's cancellation,
or a failure of `msg.edit_text`) is delivered, here after `k` completed
iterations.  Returns the frames shown and the loop's raised exception. -/
def loading_loop (k : Nat) (interrupt : String) : List String × Except String Unit :=
  (loading_animation_frames k, Except.error interrupt)

/-- Embeds `loading_animation` (src/main.py lines 54-63): the loop runs under a
bare `except: pass`, so whatever exception ends the loop — including
cancellation — is swallowed and the task finishes without error. -/
def loading_animation (k : Nat) (interrupt : String) : List String × Except String Unit :=
  let r := loading_loop k interrupt
  (r.1,
    match r.2 with
    | Except.error _ => Except.ok ()
    | Except.ok u => Except.ok u)

/-- Observable events of one handler invocation: creation of the
progress-indicator task, the extraction-API call, each
`send_media_from_url` call, and the `finally: task.cancel()`. -/
inductive Ev
  | spawn
  | apiCall (endpoint : String) (link : String)
  | relay (url : String)
  | cancel
  deriving DecidableEq, Repr

/-- The final user-visible message of a handler invocation. -/
inductive Reply
  | cooldownMsg (wait : ℚ)
  | usageMsg
  | doneMsg (uploaded : Nat) (fallback : List String)
  | errorMsg (e : String)
  | tooLargeMsg (url : String)
  | deletedMsg
  | unexpectedMsg
  deriving DecidableEq, Repr

/-- Result of one handler invocation: the user session state and global
statistics after the call, the final reply, and the event trace. -/
structure HandlerResult where
  userData : UserData
  stats : Stats
  reply : Reply
  events : List Ev
  deriving DecidableEq, Repr

/-- Substring test on character lists (Python's `"mp4" in url`). -/
def charsContain (pat : List Char) : List Char → Bool
  | [] => pat.isEmpty
  | c :: rest => pat.isPrefixOf (c :: rest) || charsContain pat rest

/-- The media kind chosen by `handle_instagram` for one URL:
`"video" if "mp4" in url else "photo"` (src/main.py line 163). -/
def mediaTypeFor (url : String) : MediaType :=
  if charsContain "mp4".toList url.toList then MediaType.video else MediaType.photo

/-- Truthiness of `data.get("success") and data.get("urls")`
(src/main.py line 158): the success flag is set and the `urls` list is
present and non-empty. -/
def instaOk (d : ApiDict) : Bool :=
  d.success && !(d.urls.getD []).isEmpty

/-- Truthiness of `data.get("success") and data.get("data")`
(src/main.py line 202). -/
def tiktokOk (d : ApiDict) : Bool :=
  d.success && !(d.dataField.getD []).isEmpty

/-- Models `data["data"][0]` in `handle_tiktok`; the placeholder record (empty
`downloadLinks`) stands for the raising subscription when the payload is
empty — `tiktokOk` guarantees the list is non-empty on the path that
reads it. -/
def firstVideo (d : ApiDict) : VideoRecord :=
  (d.dataField.getD []).headD (VideoRecord.mk [] none none)

/-- The delivery loop of `handle_instagram` (src/main.py lines 161-167):
for each URL (item `i` drawing its fetch/send behaviour from `env i`), one
`send_media_from_url` call; a success bumps `uploaded`, a failure appends
the URL to `fallback`.  Returns
`(uploaded, fallback, relay-calls in order)`. -/
def instaLoop (env : Nat → ItemEnv) : Nat → List String → Nat × List String × List String
  | _, [] => (0, [], [])
  | i, url :: rest =>
    let sent := send_media_from_url (mediaTypeFor url) (env i)
    let r := instaLoop env (i + 1) rest
    if sent then (r.1 + 1, r.2.1, url :: r.2.2)
    else (r.1, url :: r.2.1, url :: r.2.2)

/-- Embeds `handle_instagram` (src/main.py lines 143-180).  `api` is the network
behaviour of the extraction call, `env` the per-item fetch/send behaviour,
and `unexpected = true` injects an exception into the `try` body right
after the task spawn (the `except` clause replies a generic error).  Chat
sends themselves are modelled as non-failing.  The order of the source is
kept: cooldown check first, then the argument check, then the
spawn/fetch/relay/stats pipeline with `finally: task.cancel()`. -/
def handle_instagram (adminIds : List Nat) (cooldown : ℚ) (userId : Nat)
    (userData : UserData) (st : Stats) (now : ℚ) (args : List String)
    (api : HttpOutcome) (env : Nat → ItemEnv) (unexpected : Bool) : HandlerResult :=
  let c := check_cooldown adminIds cooldown userId userData now
  if c.1.1 then
    { userData := c.2, stats := st, reply := Reply.cooldownMsg c.1.2, events := [] }
  else if args.isEmpty then
    { userData := c.2, stats := st, reply := Reply.usageMsg, events := [] }
  else if unexpected then
    { userData := c.2, stats := st, reply := Reply.unexpectedMsg
      events := [Ev.spawn, Ev.cancel] }
  else
    let link := args.headD ""
    let data := call_api "insta" link [] api
    if instaOk data then
      let r := instaLoop env 0 (data.urls.getD [])
      { userData := c.2
        stats := track_command userId "instagram" true st
        reply := Reply.doneMsg r.1 r.2.1
        events := Ev.spawn :: Ev.apiCall "insta" link :: (r.2.2.map Ev.relay ++ [Ev.cancel]) }
    else
      { userData := c.2
        stats := track_command userId "instagram" false st
        reply := Reply.errorMsg (data.error.getD "Unknown")
        events := [Ev.spawn, Ev.apiCall "insta" link, Ev.cancel] }

/-- Embeds `handle_tiktok` (src/main.py lines 188-221).  Same shape as
`handle_instagram`, but: the payload is `data["data"]`, the single relay
call uses `downloadLinks[0]` of the first record with media type
`"video"`; an empty `downloadLinks` makes the subscription raise
(`except` clause, no stats update); and — unlike `handle_instagram` — the
extraction-failure branch records NO statistics. -/
def handle_tiktok (adminIds : List Nat) (cooldown : ℚ) (userId : Nat)
    (userData : UserData) (st : Stats) (now : ℚ) (args : List String)
    (api : HttpOutcome) (env : ItemEnv) (unexpected : Bool) : HandlerResult :=
  let c := check_cooldown adminIds cooldown userId userData now
  if c.1.1 then
    { userData := c.2, stats := st, reply := Reply.cooldownMsg c.1.2, events := [] }
  else if args.isEmpty then
    { userData := c.2, stats := st, reply := Reply.usageMsg, events := [] }
  else if unexpected then
    { userData := c.2, stats := st, reply := Reply.unexpectedMsg
      events := [Ev.spawn, Ev.cancel] }
  else
    let link := args.headD ""
    let data := call_api "tiktok" link [] api
    if tiktokOk data then
      match (firstVideo data).downloadLinks with
      | [] =>
        { userData := c.2, stats := st, reply := Reply.unexpectedMsg
          events := [Ev.spawn, Ev.apiCall "tiktok" link, Ev.cancel] }
      | dl :: _ =>
        let sent := send_media_from_url MediaType.video env
        if sent then
          { userData := c.2
            stats := track_command userId "tiktok" true st
            reply := Reply.deletedMsg
            events := [Ev.spawn, Ev.apiCall "tiktok" link, Ev.relay dl, Ev.cancel] }
        else
          { userData := c.2
            stats := track_command userId "tiktok" false st
            reply := Reply.tooLargeMsg dl
            events := [Ev.spawn, Ev.apiCall "tiktok" link, Ev.relay dl, Ev.cancel] }
    else
      { userData := c.2, stats := st
        reply := Reply.errorMsg (data.error.getD "Not found")
        events := [Ev.spawn, Ev.apiCall "tiktok" link, Ev.cancel] }

/-- Whether item `i` (with the given URL) of an Instagram delivery loop is
sent successfully under the environment `env`. -/
def sentAt (env : Nat → ItemEnv) (i : Nat) (url : String) : Bool :=
  send_media_from_url (mediaTypeFor url) (env i)

/-- Meaning of "the global statistics were mutated exactly once": the total went up
by one and exactly one of the success/failure counters went up by one,
the one selected by `success`. -/
def bumpedOnce (old new : Stats) (success : Bool) : Prop :=
  new.total_requests = old.total_requests + 1 ∧
  new.successful_requests
    = (if success then old.successful_requests + 1 else old.successful_requests) ∧
  new.failed_requests
    = (if success then old.failed_requests else old.failed_requests + 1)

/-! ## Theorems -/

/-- C1: a non-privileged user with a recorded last-command timestamp whose
elapsed time `now - last` is strictly below the cooldown window `W` gets
`(on_cooldown = true, round1 (W - elapsed))` back — i.e. the attempt is
not allowed and the remaining wait is `W - elapsed` rounded to one decimal
place — and the session state is returned unchanged: a blocked attempt
does not reset the window. -/
theorem C1_blocked_attempt_reports_wait_and_keeps_timestamp
    (adminIds : List Nat) (W : ℚ) (userId : Nat) (ud : UserData) (now last : ℚ)
    (hadmin : userId ∉ adminIds) (hlast : ud.last_cmd = some last)
    (helapsed : now - last < W) :
    check_cooldown adminIds W userId ud now
      = ((true, round1 (W - (now - last))), ud) := by
  simp [check_cooldown, hadmin, hlast, helapsed]

/-- Witness for C1: user 1, no admins, last command at `t = 10`, retry at
`t = 12` with a 7-second window: blocked with `5.0` seconds remaining,
state untouched. -/
theorem C1_blocked_attempt_reports_wait_and_keeps_timestamp_witness :
    (1 : Nat) ∉ ([] : List Nat) ∧
    (UserData.mk (some 10)).last_cmd = some 10 ∧
    (12 : ℚ) - 10 < 7 ∧
    check_cooldown [] 7 1 (UserData.mk (some 10)) 12
      = ((true, round1 (7 - ((12 : ℚ) - 10))), UserData.mk (some 10)) :=
  ⟨by decide, rfl, by norm_num,
    C1_blocked_attempt_reports_wait_and_keeps_timestamp [] 7 1 (UserData.mk (some 10))
      12 10 (by decide) rfl (by norm_num)⟩

/-- C8: a privileged (admin) user always gets `(on_cooldown = false, 0)` —
i.e. is allowed with zero remaining wait — and the session state is
returned unchanged, whatever the stored timestamp and the current time
(the admin branch returns before the timestamp is read or written). -/
theorem C8_admin_always_allowed_state_untouched
    (adminIds : List Nat) (W : ℚ) (userId : Nat) (ud : UserData) (now : ℚ)
    (hadmin : userId ∈ adminIds) :
    check_cooldown adminIds W userId ud now = ((false, 0), ud) := by
  simp [check_cooldown, hadmin]

/-- Witness for C8: admin 42 retries with zero elapsed time and is still
allowed, with the session state untouched. -/
theorem C8_admin_always_allowed_state_untouched_witness :
    (42 : Nat) ∈ [42] ∧
    check_cooldown [42] 7 42 (UserData.mk (some 5)) 5 = ((false, 0), UserData.mk (some 5)) :=
  ⟨by decide,
    C8_admin_always_allowed_state_untouched [42] 7 42 (UserData.mk (some 5)) 5 (by decide)⟩

/-- C2: when the fetched byte length exceeds the size cap for its kind
(video above 50 MiB, photo above 10 MiB), `send_media_from_url` raises a
`ValueError` internally (the `send_media_body` value is an error), the
surrounding `except` catches it, and the call returns `false` — a failed
inline delivery that every caller turns into a deferred link — never
`true` (delivered), and no exception escapes (the function is total with
result type `Bool`). -/
theorem C2_oversized_media_never_delivered
    (mt : MediaType) (len : Nat) (snd : Except String Unit)
    (h : (mt = MediaType.video ∧ len > videoLimit) ∨
         (mt = MediaType.photo ∧ len > photoLimit)) :
    send_media_from_url mt (ItemEnv.mk (Except.ok len) snd) = false ∧
    ∃ m, send_media_body mt (ItemEnv.mk (Except.ok len) snd) = Except.error m := by
  rcases h with ⟨hm, hl⟩ | ⟨hm, hl⟩ <;> subst hm
  · have hb : send_media_body MediaType.video (ItemEnv.mk (Except.ok len) snd)
        = Except.error "Video >50MB" := by
      simp [send_media_body, hl]
    exact ⟨by simp [send_media_from_url, hb], ⟨_, hb⟩⟩
  · have hb : send_media_body MediaType.photo (ItemEnv.mk (Except.ok len) snd)
        = Except.error "Photo >10MB" := by
      simp [send_media_body, hl]
    exact ⟨by simp [send_media_from_url, hb], ⟨_, hb⟩⟩

/-- Witness for C2: a video one byte above the 50 MiB cap is not
delivered even though the chat send itself would have succeeded. -/
theorem C2_oversized_media_never_delivered_witness :
    ((MediaType.video = MediaType.video ∧ videoLimit + 1 > videoLimit) ∨
      (MediaType.video = MediaType.photo ∧ videoLimit + 1 > photoLimit)) ∧
    (send_media_from_url MediaType.video
        (ItemEnv.mk (Except.ok (videoLimit + 1)) (Except.ok ())) = false ∧
      ∃ m, send_media_body MediaType.video
        (ItemEnv.mk (Except.ok (videoLimit + 1)) (Except.ok ())) = Except.error m) :=
  ⟨Or.inl ⟨rfl, Nat.lt_succ_self _⟩,
    C2_oversized_media_never_delivered MediaType.video (videoLimit + 1) (Except.ok ())
      (Or.inl ⟨rfl, Nat.lt_succ_self _⟩)⟩

/-- C10: audio has no size threshold: for every fetch/send environment the
outcome of an audio delivery is exactly `fetch succeeded && send
succeeded` — in particular it does not depend on the fetched byte length,
and an audio item is never rejected by the size policy. -/
theorem C10_audio_outcome_ignores_size (env : ItemEnv) :
    send_media_from_url MediaType.audio env = (exceptOk env.fetch && exceptOk env.send) := by
  rcases env with ⟨f, s⟩
  cases f <;> cases s <;> simp [send_media_from_url, send_media_body, exceptOk]

/-- C6 (amended): every failure of the underlying HTTP call is normalised
by `call_api` into the dict `{"success": False, "error": str(e)}` — for a
transport error the transport's message, for a 4xx/5xx status the
`HTTPError` message from `raise_for_status`, for an unparseable body the
parser's message — and the function never raises (it is total, returning
a plain `ApiDict`), for every endpoint, link and extra parameters.  But
NOT for every non-2xx status: `raise_for_status` raises only for status
codes at or above 400, so a non-2xx status below 400 (such as 304) with a
parseable body is returned verbatim, not as a Failure. -/
theorem C6_api_failure_normalised
    (endpoint url : String) (extra : List (String × String)) (o : HttpOutcome) :
    (∀ m, o = HttpOutcome.exn m → call_api endpoint url extra o = failureDict m) ∧
    (∀ status body, o = HttpOutcome.response status body → 400 ≤ status →
      call_api endpoint url extra o
        = failureDict ("HTTP " ++ toString status ++ " Error")) ∧
    (∀ status m, o = HttpOutcome.response status (Except.error m) → status < 400 →
      call_api endpoint url extra o = failureDict m) ∧
    (∀ status d, o = HttpOutcome.response status (Except.ok d) → status < 400 →
      call_api endpoint url extra o = d) := by
  refine ⟨?_, ?_, ?_, ?_⟩
  · rintro m rfl
    simp [call_api, call_api_body]
  · rintro status body rfl hs
    simp [call_api, call_api_body, hs]
  · rintro status m rfl hs
    simp [call_api, call_api_body, Nat.not_le.mpr hs]
  · rintro status d rfl hs
    simp [call_api, call_api_body, Nat.not_le.mpr hs]

/-- Counterexample for C6 as stated: a 304 response — a non-2xx status —
with a parseable success body is NOT turned into a Failure: the body is
returned verbatim with its success flag set, and it differs from every
`failureDict m` (`raise_for_status` raises only for statuses at or above
400). -/
theorem C6_counterexample_304_not_failure :
    call_api "insta" "http://x" []
        (HttpOutcome.response 304 (Except.ok (ApiDict.mk true none (some ["u"]) none)))
      = ApiDict.mk true none (some ["u"]) none ∧
    (call_api "insta" "http://x" []
        (HttpOutcome.response 304 (Except.ok (ApiDict.mk true none (some ["u"]) none)))).success
      = true ∧
    ∀ m, ApiDict.mk true none (some ["u"]) none ≠ failureDict m := by
  refine ⟨rfl, rfl, fun m => by simp [failureDict]⟩

/-- Witness for C6: a raised timeout on the `insta` endpoint becomes
`{"success": False, "error": "timeout"}`. -/
theorem C6_api_failure_normalised_witness :
    call_api "insta" "http://x" [] (HttpOutcome.exn "timeout") = failureDict "timeout" :=
  (C6_api_failure_normalised "insta" "http://x" [] (HttpOutcome.exn "timeout")).1
    "timeout" rfl

/-- One `track_command` call preserves `total = successes + failures`. -/
theorem track_command_preserves_sum (u : Nat) (cmd : String) (b : Bool) (st : Stats)
    (h : st.total_requests = st.successful_requests + st.failed_requests) :
    (track_command u cmd b st).total_requests
      = (track_command u cmd b st).successful_requests
        + (track_command u cmd b st).failed_requests := by
  cases b <;> simp [track_command, h] <;> omega

/-- Folding any sequence of `track_command` calls preserves
`total = successes + failures`. -/
theorem foldl_track_preserves_sum :
    ∀ (evs : List (Nat × String × Bool)) (st : Stats),
      st.total_requests = st.successful_requests + st.failed_requests →
      ((evs.foldl (fun s e => track_command e.1 e.2.1 e.2.2 s) st).total_requests
        = (evs.foldl (fun s e => track_command e.1 e.2.1 e.2.2 s) st).successful_requests
          + (evs.foldl (fun s e => track_command e.1 e.2.1 e.2.2 s) st).failed_requests)
  | [], _, h => h
  | e :: rest, st, h =>
    foldl_track_preserves_sum rest (track_command e.1 e.2.1 e.2.2 st)
      (track_command_preserves_sum e.1 e.2.1 e.2.2 st h)

/-- C5: after any sequence of `track_command` (record) calls starting from
the initial statistics, `total_requests = successful_requests +
failed_requests`, and the success rate reported by `about` is exactly
`successful_requests / max(total_requests, 1) * 100`. -/
theorem C5_totals_balance_and_exact_rate (t0 : ℚ) (evs : List (Nat × String × Bool)) :
    ((evs.foldl (fun s e => track_command e.1 e.2.1 e.2.2 s) (stats0 t0)).total_requests
      = (evs.foldl (fun s e => track_command e.1 e.2.1 e.2.2 s) (stats0 t0)).successful_requests
        + (evs.foldl (fun s e => track_command e.1 e.2.1 e.2.2 s) (stats0 t0)).failed_requests) ∧
    success_rate (evs.foldl (fun s e => track_command e.1 e.2.1 e.2.2 s) (stats0 t0))
      = ((evs.foldl (fun s e => track_command e.1 e.2.1 e.2.2 s) (stats0 t0)).successful_requests : ℚ)
        / (max (evs.foldl (fun s e => track_command e.1 e.2.1 e.2.2 s) (stats0 t0)).total_requests 1 : ℚ)
        * 100 :=
  ⟨foldl_track_preserves_sum evs (stats0 t0) rfl, rfl⟩

/-- C3 (amended): a platform command invoked without its link argument by
a user who is not blocked by the cooldown replies the usage error, makes
no network call and spawns no task (empty event trace), and leaves the
global statistics untouched; but the user session state after the call is
whatever the cooldown check left — the timestamp-update path HAS already
run, because `check_cooldown` is called before the argument check. -/
theorem C3_missing_arg_usage_error_frame
    (adminIds : List Nat) (W : ℚ) (userId : Nat) (ud : UserData) (st : Stats) (now : ℚ)
    (api : HttpOutcome) (ienv : Nat → ItemEnv) (tenv : ItemEnv) (unexpected : Bool)
    (hcd : (check_cooldown adminIds W userId ud now).1.1 = false) :
    ((handle_instagram adminIds W userId ud st now [] api ienv unexpected).reply
        = Reply.usageMsg ∧
      (handle_instagram adminIds W userId ud st now [] api ienv unexpected).events = [] ∧
      (handle_instagram adminIds W userId ud st now [] api ienv unexpected).stats = st ∧
      (handle_instagram adminIds W userId ud st now [] api ienv unexpected).userData
        = (check_cooldown adminIds W userId ud now).2) ∧
    ((handle_tiktok adminIds W userId ud st now [] api tenv unexpected).reply
        = Reply.usageMsg ∧
      (handle_tiktok adminIds W userId ud st now [] api tenv unexpected).events = [] ∧
      (handle_tiktok adminIds W userId ud st now [] api tenv unexpected).stats = st ∧
      (handle_tiktok adminIds W userId ud st now [] api tenv unexpected).userData
        = (check_cooldown adminIds W userId ud now).2) := by
  constructor <;> simp [handle_instagram, handle_tiktok, hcd]

/-- Witness for C3 (amended): user 1 (no admins), last command absent,
`now = 100`, window 7, no argument: usage error, no events, stats kept. -/
theorem C3_missing_arg_usage_error_frame_witness :
    (check_cooldown [] 7 1 (UserData.mk none) 100).1.1 = false ∧
    (handle_instagram [] 7 1 (UserData.mk none) (stats0 0) 100 []
        (HttpOutcome.exn "e") (fun _ => ItemEnv.mk (Except.ok 0) (Except.ok ())) false).reply
      = Reply.usageMsg :=
  ⟨by norm_num [check_cooldown],
    (C3_missing_arg_usage_error_frame [] 7 1 (UserData.mk none) (stats0 0) 100
      (HttpOutcome.exn "e") (fun _ => ItemEnv.mk (Except.ok 0) (Except.ok ()))
      (ItemEnv.mk (Except.ok 0) (Except.ok ())) false (by norm_num [check_cooldown])).1.1⟩

/-- Counterexample for C3 as stated: user 1 (non-privileged, off
cooldown) invokes `/instagram` with no argument at `now = 100`.  The
usage error is reported, yet the user's last-command timestamp IS
updated (from absent to `100`), because the cooldown check runs before
the argument check — contradicting "without updating the invoking user's
last-command timestamp". -/
theorem C3_counterexample_timestamp_updated_on_usage_error :
    (handle_instagram [] 7 1 (UserData.mk none) (stats0 0) 100 []
        (HttpOutcome.exn "e") (fun _ => ItemEnv.mk (Except.ok 0) (Except.ok ())) false).reply
      = Reply.usageMsg ∧
    (handle_instagram [] 7 1 (UserData.mk none) (stats0 0) 100 []
        (HttpOutcome.exn "e") (fun _ => ItemEnv.mk (Except.ok 0) (Except.ok ())) false).userData
      = UserData.mk (some 100) ∧
    UserData.mk (some 100) ≠ UserData.mk none := by
  refine ⟨?_, ?_, by simp⟩ <;> norm_num [handle_instagram, check_cooldown]

/-- A `track_command` call is exactly one statistics mutation. -/
theorem track_command_bumps (u : Nat) (cmd : String) (b : Bool) (st : Stats) :
    bumpedOnce st (track_command u cmd b st) b := by
  cases b <;> simp [bumpedOnce, track_command]

/-- C4 (amended): past the rate-limit and argument checks, the statistics
are mutated exactly once when the extraction result is usable — for
`handle_instagram` on extraction success, for `handle_instagram` equally
on extraction failure, and for `handle_tiktok` on extraction success with
a present download link — but NOT regardless of the extraction outcome:
`handle_tiktok`'s extraction-failure branch leaves the statistics
completely unchanged. -/
theorem C4_stats_updated_once_amended
    (adminIds : List Nat) (W : ℚ) (userId : Nat) (ud : UserData) (st : Stats)
    (now : ℚ) (link : String) (rest : List String) (api : HttpOutcome)
    (ienv : Nat → ItemEnv) (tenv : ItemEnv)
    (hcd : (check_cooldown adminIds W userId ud now).1.1 = false) :
    (instaOk (call_api "insta" link [] api) = true →
      bumpedOnce st
        (handle_instagram adminIds W userId ud st now (link :: rest) api ienv false).stats
        true) ∧
    (instaOk (call_api "insta" link [] api) = false →
      bumpedOnce st
        (handle_instagram adminIds W userId ud st now (link :: rest) api ienv false).stats
        false) ∧
    (tiktokOk (call_api "tiktok" link [] api) = true →
      (firstVideo (call_api "tiktok" link [] api)).downloadLinks ≠ [] →
      bumpedOnce st
        (handle_tiktok adminIds W userId ud st now (link :: rest) api tenv false).stats
        (send_media_from_url MediaType.video tenv)) ∧
    (tiktokOk (call_api "tiktok" link [] api) = false →
      (handle_tiktok adminIds W userId ud st now (link :: rest) api tenv false).stats
        = st) := by
  refine ⟨fun h => ?_, fun h => ?_, fun h hdl => ?_, fun h => ?_⟩
  · simpa [handle_instagram, hcd, h] using track_command_bumps userId "instagram" true st
  · simpa [handle_instagram, hcd, h] using track_command_bumps userId "instagram" false st
  · rcases hv : (firstVideo (call_api "tiktok" link [] api)).downloadLinks with _ | ⟨dl, dls⟩
    · exact absurd hv hdl
    · cases hsent : send_media_from_url MediaType.video tenv <;>
        simpa [handle_tiktok, hcd, h, hv, hsent]
          using track_command_bumps userId "tiktok" (send_media_from_url MediaType.video tenv) st
  · simp [handle_tiktok, hcd, h]

/-- Witness for C4 (amended): user 1, window 7, `now = 100`, a successful
Instagram extraction with one URL: the statistics are bumped exactly once
as a success. -/
theorem C4_stats_updated_once_amended_witness :
    (check_cooldown [] 7 1 (UserData.mk none) 100).1.1 = false ∧
    instaOk (call_api "insta" "L" []
        (HttpOutcome.response 200 (Except.ok (ApiDict.mk true none (some ["a.mp4"]) none))))
      = true ∧
    bumpedOnce (stats0 0)
      (handle_instagram [] 7 1 (UserData.mk none) (stats0 0) 100 ["L"]
        (HttpOutcome.response 200 (Except.ok (ApiDict.mk true none (some ["a.mp4"]) none)))
        (fun _ => ItemEnv.mk (Except.ok 0) (Except.ok ())) false).stats
      true :=
  ⟨by norm_num [check_cooldown], by decide,
    (C4_stats_updated_once_amended [] 7 1 (UserData.mk none) (stats0 0) 100 "L" []
      (HttpOutcome.response 200 (Except.ok (ApiDict.mk true none (some ["a.mp4"]) none)))
      (fun _ => ItemEnv.mk (Except.ok 0) (Except.ok ()))
      (ItemEnv.mk (Except.ok 0) (Except.ok ()))
      (by norm_num [check_cooldown])).1 (by decide)⟩

/-- Counterexample for C4 as stated: user 1 (off cooldown, argument
present) invokes `/tiktok` and the extraction call fails (`"boom"`).  The
invocation passes the rate-limit and argument checks — the reply is the
extraction-error message — yet the statistics are NOT mutated at all,
contradicting "mutated exactly once ... regardless of whether the
extraction call succeeds or fails". -/
theorem C4_counterexample_tiktok_failure_skips_stats :
    (handle_tiktok [] 7 1 (UserData.mk none) (stats0 0) 100 ["L"]
        (HttpOutcome.exn "boom") (ItemEnv.mk (Except.ok 0) (Except.ok ())) false).reply
      = Reply.errorMsg "boom" ∧
    (handle_tiktok [] 7 1 (UserData.mk none) (stats0 0) 100 ["L"]
        (HttpOutcome.exn "boom") (ItemEnv.mk (Except.ok 0) (Except.ok ())) false).stats
      = stats0 0 := by
  constructor <;>
    norm_num [handle_tiktok, check_cooldown, call_api, call_api_body, tiktokOk, failureDict]

/-- Characterisation of the Instagram delivery loop starting at item
index `i`: it issues exactly one relay call per URL in input order, the
delivered count plus the deferred count equals the number of URLs, and
the deferred-link list is exactly the URLs of the non-delivered items. -/
theorem instaLoop_spec (env : Nat → ItemEnv) :
    ∀ (urls : List String) (i : Nat),
      (instaLoop env i urls).2.2 = urls ∧
      (instaLoop env i urls).1 + (instaLoop env i urls).2.1.length = urls.length ∧
      (instaLoop env i urls).2.1
        = ((urls.enumFrom i).filter (fun p => !(sentAt env p.1 p.2))).map Prod.snd := by
  intro urls
  induction urls with
  | nil => intro i; simp [instaLoop]
  | cons url rest ih =>
    intro i
    obtain ⟨h1, h2, h3⟩ := ih (i + 1)
    cases hs : sentAt env i url with
    | true =>
      have hs0 : send_media_from_url (mediaTypeFor url) (env i) = true := hs
      refine ⟨?_, ?_, ?_⟩
      · simp [instaLoop, hs0, h1]
      · simp [instaLoop, hs0]
        omega
      · simp [instaLoop, hs0, h3, List.enumFrom_cons, hs]
    | false =>
      have hs0 : send_media_from_url (mediaTypeFor url) (env i) = false := hs
      refine ⟨?_, ?_, ?_⟩
      · simp [instaLoop, hs0, h1]
      · simp [instaLoop, hs0]
        omega
      · simp [instaLoop, hs0, h3, List.enumFrom_cons, hs]

/-- C7: when the cooldown and the argument check pass and the extraction
succeeds with the URL list `urls`, `handle_instagram` performs exactly one
relay call per URL, in input order (the event trace lists them verbatim);
the final report's delivered count plus deferred-link count equals the
number of URLs; and the deferred-link list is exactly the non-delivered
items — it never contains an item that was successfully delivered. -/
theorem C7_one_relay_per_url_and_exact_report
    (adminIds : List Nat) (W : ℚ) (userId : Nat) (ud : UserData) (st : Stats)
    (now : ℚ) (link : String) (rest : List String) (api : HttpOutcome)
    (env : Nat → ItemEnv) (d : ApiDict) (urls : List String)
    (hcd : (check_cooldown adminIds W userId ud now).1.1 = false)
    (hapi : call_api "insta" link [] api = d)
    (hsucc : d.success = true) (hurls : d.urls = some urls) (hne : urls ≠ []) :
    (handle_instagram adminIds W userId ud st now (link :: rest) api env false).events
      = Ev.spawn :: Ev.apiCall "insta" link :: (urls.map Ev.relay ++ [Ev.cancel]) ∧
    (handle_instagram adminIds W userId ud st now (link :: rest) api env false).reply
      = Reply.doneMsg (instaLoop env 0 urls).1 (instaLoop env 0 urls).2.1 ∧
    (instaLoop env 0 urls).1 + (instaLoop env 0 urls).2.1.length = urls.length ∧
    (instaLoop env 0 urls).2.1
      = ((urls.enumFrom 0).filter (fun p => !(sentAt env p.1 p.2))).map Prod.snd := by
  obtain ⟨h1, h2, h3⟩ := instaLoop_spec env urls 0
  have hok : instaOk d = true := by
    cases urls with
    | nil => exact absurd rfl hne
    | cons u us => simp [instaOk, hsucc, hurls]
  refine ⟨?_, ?_, h2, h3⟩ <;> simp [handle_instagram, hcd, hapi, hok, hurls, h1]

/-- Witness for C7: two URLs (`a.mp4` delivered as video, `b` fails its
photo send), off cooldown: two relay events in order, delivered `1` plus
deferred `1` equals `2`, and the deferred list holds exactly `b`. -/
theorem C7_one_relay_per_url_and_exact_report_witness :
    (handle_instagram [] 7 1 (UserData.mk none) (stats0 0) 100 ["L"]
        (HttpOutcome.response 200
          (Except.ok (ApiDict.mk true none (some ["a.mp4", "b"]) none)))
        (fun i => if i = 0 then ItemEnv.mk (Except.ok 0) (Except.ok ())
          else ItemEnv.mk (Except.ok 0) (Except.error "send failed")) false).events
      = Ev.spawn :: Ev.apiCall "insta" "L"
          :: (["a.mp4", "b"].map Ev.relay ++ [Ev.cancel]) ∧
    (handle_instagram [] 7 1 (UserData.mk none) (stats0 0) 100 ["L"]
        (HttpOutcome.response 200
          (Except.ok (ApiDict.mk true none (some ["a.mp4", "b"]) none)))
        (fun i => if i = 0 then ItemEnv.mk (Except.ok 0) (Except.ok ())
          else ItemEnv.mk (Except.ok 0) (Except.error "send failed")) false).reply
      = Reply.doneMsg
          (instaLoop (fun i => if i = 0 then ItemEnv.mk (Except.ok 0) (Except.ok ())
            else ItemEnv.mk (Except.ok 0) (Except.error "send failed")) 0 ["a.mp4", "b"]).1
          (instaLoop (fun i => if i = 0 then ItemEnv.mk (Except.ok 0) (Except.ok ())
            else ItemEnv.mk (Except.ok 0) (Except.error "send failed")) 0 ["a.mp4", "b"]).2.1 ∧
    (instaLoop (fun i => if i = 0 then ItemEnv.mk (Except.ok 0) (Except.ok ())
        else ItemEnv.mk (Except.ok 0) (Except.error "send failed")) 0 ["a.mp4", "b"]).1
      + (instaLoop (fun i => if i = 0 then ItemEnv.mk (Except.ok 0) (Except.ok ())
          else ItemEnv.mk (Except.ok 0) (Except.error "send failed")) 0 ["a.mp4", "b"]).2.1.length
      = (["a.mp4", "b"] : List String).length ∧
    (instaLoop (fun i => if i = 0 then ItemEnv.mk (Except.ok 0) (Except.ok ())
        else ItemEnv.mk (Except.ok 0) (Except.error "send failed")) 0 ["a.mp4", "b"]).2.1
      = (((["a.mp4", "b"] : List String).enumFrom 0).filter
          (fun p => !(sentAt (fun i => if i = 0 then ItemEnv.mk (Except.ok 0) (Except.ok ())
            else ItemEnv.mk (Except.ok 0) (Except.error "send failed")) p.1 p.2))).map
          Prod.snd :=
  C7_one_relay_per_url_and_exact_report [] 7 1 (UserData.mk none) (stats0 0) 100 "L" []
    (HttpOutcome.response 200 (Except.ok (ApiDict.mk true none (some ["a.mp4", "b"]) none)))
    (fun i => if i = 0 then ItemEnv.mk (Except.ok 0) (Except.ok ())
      else ItemEnv.mk (Except.ok 0) (Except.error "send failed"))
    (ApiDict.mk true none (some ["a.mp4", "b"]) none) ["a.mp4", "b"]
    (by norm_num [check_cooldown]) rfl rfl rfl (by simp)

/-- Every execution path of `handle_instagram` produces one of three event
shapes: no task at all (cooldown / usage error), spawn then cancel (the
injected unexpected exception), or spawn, API call, some events, then
cancel.  In particular, every path that spawns ends with the `finally`
cancellation. -/
theorem handle_instagram_events_cases
    (adminIds : List Nat) (W : ℚ) (userId : Nat) (ud : UserData) (st : Stats)
    (now : ℚ) (args : List String) (api : HttpOutcome)
    (env : Nat → ItemEnv) (unexpected : Bool) :
    (handle_instagram adminIds W userId ud st now args api env unexpected).events = [] ∨
    (handle_instagram adminIds W userId ud st now args api env unexpected).events
      = [Ev.spawn, Ev.cancel] ∨
    ∃ l : List Ev,
      (handle_instagram adminIds W userId ud st now args api env unexpected).events
        = Ev.spawn :: Ev.apiCall "insta" (args.headD "") :: (l ++ [Ev.cancel]) := by
  by_cases h1 : (check_cooldown adminIds W userId ud now).1.1
  · left; simp [handle_instagram, h1]
  · by_cases h2 : args.isEmpty
    · left; simp [handle_instagram, h1, h2]
    · by_cases h3 : unexpected
      · right; left; simp [handle_instagram, h1, h2, h3]
      · by_cases h4 : instaOk (call_api "insta" (args.headD "") [] api)
        all_goals simp only [List.headD_eq_head?_getD] at h4
        · right; right
          exact ⟨(instaLoop env 0
              ((call_api "insta" (args.headD "") [] api).urls.getD [])).2.2.map Ev.relay,
            by simp [handle_instagram, h1, h2, h3, h4]⟩
        · right; right
          exact ⟨[], by simp [handle_instagram, h1, h2, h3, h4]⟩

/-- Same branch analysis for `handle_tiktok`: every path that spawns the
progress task ends with the `finally` cancellation. -/
theorem handle_tiktok_events_cases
    (adminIds : List Nat) (W : ℚ) (userId : Nat) (ud : UserData) (st : Stats)
    (now : ℚ) (args : List String) (api : HttpOutcome)
    (env : ItemEnv) (unexpected : Bool) :
    (handle_tiktok adminIds W userId ud st now args api env unexpected).events = [] ∨
    (handle_tiktok adminIds W userId ud st now args api env unexpected).events
      = [Ev.spawn, Ev.cancel] ∨
    ∃ l : List Ev,
      (handle_tiktok adminIds W userId ud st now args api env unexpected).events
        = Ev.spawn :: Ev.apiCall "tiktok" (args.headD "") :: (l ++ [Ev.cancel]) := by
  by_cases h1 : (check_cooldown adminIds W userId ud now).1.1
  · left; simp [handle_tiktok, h1]
  · by_cases h2 : args.isEmpty
    · left; simp [handle_tiktok, h1, h2]
    · by_cases h3 : unexpected
      · right; left; simp [handle_tiktok, h1, h2, h3]
      · by_cases h4 : tiktokOk (call_api "tiktok" (args.headD "") [] api)
        all_goals simp only [List.headD_eq_head?_getD] at h4
        · rcases hv : (firstVideo (call_api "tiktok" (args.head?.getD "") [] api)).downloadLinks
            with _ | ⟨dl, dls⟩
          · right; right
            exact ⟨[], by simp [handle_tiktok, h1, h2, h3, h4, hv]⟩
          · by_cases h5 : send_media_from_url MediaType.video env
            · right; right
              exact ⟨[Ev.relay dl], by simp [handle_tiktok, h1, h2, h3, h4, hv, h5]⟩
            · right; right
              exact ⟨[Ev.relay dl], by simp [handle_tiktok, h1, h2, h3, h4, hv, h5]⟩
        · right; right
          exact ⟨[], by simp [handle_tiktok, h1, h2, h3, h4]⟩

/-- C9: whenever a platform handler spawns the progress-indicator task
(`Ev.spawn` appears in its trace), the trace ends with the `finally`
cancellation (`Ev.cancel` is the last event), whatever the relay phase
did — success, extraction failure, or an unexpected exception; and the
cancellation is tolerated by the animation task itself: for every
iteration count and every interrupt, `loading_animation` finishes with
`Except.ok ()` (its bare `except` swallows the cancellation), so it never
surfaces as a user-visible error. -/
theorem C9_task_cancelled_and_cancellation_swallowed
    (adminIds : List Nat) (W : ℚ) (userId : Nat) (ud : UserData) (st : Stats)
    (now : ℚ) (args : List String) (api : HttpOutcome)
    (ienv : Nat → ItemEnv) (tenv : ItemEnv) (unexpected : Bool) :
    (Ev.spawn ∈ (handle_instagram adminIds W userId ud st now args api ienv unexpected).events →
      (handle_instagram adminIds W userId ud st now args api ienv unexpected).events.getLast?
        = some Ev.cancel) ∧
    (Ev.spawn ∈ (handle_tiktok adminIds W userId ud st now args api tenv unexpected).events →
      (handle_tiktok adminIds W userId ud st now args api tenv unexpected).events.getLast?
        = some Ev.cancel) ∧
    ∀ (k : Nat) (interrupt : String), (loading_animation k interrupt).2 = Except.ok () := by
  refine ⟨?_, ?_, fun k interrupt => rfl⟩
  · intro hs
    rcases handle_instagram_events_cases adminIds W userId ud st now args api ienv unexpected
      with h | h | ⟨l, h⟩
    · rw [h] at hs; simp at hs
    · rw [h]; rfl
    · rw [h]
      have hsplit : Ev.spawn :: Ev.apiCall "insta" (args.headD "") :: (l ++ [Ev.cancel])
          = (Ev.spawn :: Ev.apiCall "insta" (args.headD "") :: l) ++ [Ev.cancel] := by
        simp
      rw [hsplit, List.getLast?_concat]
  · intro hs
    rcases handle_tiktok_events_cases adminIds W userId ud st now args api tenv unexpected
      with h | h | ⟨l, h⟩
    · rw [h] at hs; simp at hs
    · rw [h]; rfl
    · rw [h]
      have hsplit : Ev.spawn :: Ev.apiCall "tiktok" (args.headD "") :: (l ++ [Ev.cancel])
          = (Ev.spawn :: Ev.apiCall "tiktok" (args.headD "") :: l) ++ [Ev.cancel] := by
        simp
      rw [hsplit, List.getLast?_concat]

/-- Witness for C9: a command whose relay phase dies with an unexpected
exception still ends its trace with the cancellation. -/
theorem C9_task_cancelled_and_cancellation_swallowed_witness :
    (handle_instagram [] 7 1 (UserData.mk none) (stats0 0) 100 ["L"]
        (HttpOutcome.exn "e") (fun _ => ItemEnv.mk (Except.ok 0) (Except.ok ()))
        true).events.getLast?
      = some Ev.cancel :=
  (C9_task_cancelled_and_cancellation_swallowed [] 7 1 (UserData.mk none) (stats0 0) 100
    ["L"] (HttpOutcome.exn "e") (fun _ => ItemEnv.mk (Except.ok 0) (Except.ok ()))
    (ItemEnv.mk (Except.ok 0) (Except.ok ())) true).1
    (by norm_num [handle_instagram, check_cooldown])

end SocialDownloader
